import Mathlib

/-!
Shallow embedding of the Simulation Lifecycle & Telemetry Adapter
(internal/docker client of autobox-cli) and proofs of the spec claims.

Modelling conventions:
* Go uint64 counters become Nat; where Go subtraction wraps modulo 2^64 the
  wrap is written explicitly (goSub64).
* Go float64 arithmetic on these counters is modelled by exact rational
  arithmetic (Rat); every concrete value the claims mention (0, 25.0) is
  exactly representable in float64 and produced by exact float operations.
* Go maps used only via literal construction and key lookup become
  association lists; a lookup miss yields the zero value, as in Go.
* Fallible code (a Go panic such as an index out of range, or a slice out
  of bounds) is modelled by Option: none means the call panics.
* time.Time is modelled as an opaque value type GoTime whose zero value is
  zeroGoTime; the RFC3339 parsers are passed in as String to Option GoTime
  functions, none meaning a parse error.
-/

namespace Autobox

/-- time.Time, abstracted: an opaque value with a distinguished zero value. -/
structure GoTime where
  unixNano : Int
deriving DecidableEq

/-- The zero time.Time value (what a discarded parse error leaves behind). -/
def zeroGoTime : GoTime := ⟨0⟩

/-- models.SimulationStatus: the five status constants of pkg/models. -/
inductive SimulationStatus where
  | pending
  | running
  | completed
  | failed
  | stopped
deriving DecidableEq

/-- models.SimulationConfig (the version the docker client compiles against:
the callers in cmd/run.go populate a Name field besides the paths). -/
structure SimulationConfig where
  name : String
  configPath : String
  metricsPath : String
  serverPath : String
  image : String
  environment : List (String × String)
  volumes : List String
deriving DecidableEq

/-- models.NetworkStats. -/
structure NetworkStats where
  bytesReceived : Nat
  bytesTransmitted : Nat
  packetsReceived : Nat
  packetsTransmitted : Nat
deriving DecidableEq

/-- models.DiskStats. -/
structure DiskStats where
  bytesRead : Nat
  bytesWritten : Nat
deriving DecidableEq

/-- models.Metrics (the Custom map is never written by the adapter and is
omitted). -/
structure Metrics where
  cpuUsage : Rat
  memoryUsage : Rat
  networkIOStats : NetworkStats
  diskIOStats : DiskStats
  timestamp : GoTime
deriving DecidableEq

/-- models.Simulation. -/
structure Simulation where
  id : String
  name : String
  containerId : String
  status : SimulationStatus
  createdAt : GoTime
  startedAt : Option GoTime
  finishedAt : Option GoTime
  config : SimulationConfig
deriving DecidableEq

/-- The zero value of models.SimulationConfig. -/
def zeroSimulationConfig : SimulationConfig :=
  { name := "", configPath := "", metricsPath := "", serverPath := "",
    image := "", environment := [], volumes := [] }

/-- AutoboxLabelPrefix, the reserved label namespace "com.autobox". -/
def autoboxLabelBase : String := "com.autobox"

/-- types.ContainerState: the fields the status normalizer and the
timestamp extraction read. -/
structure ContainerState where
  running : Bool
  dead : Bool
  paused : Bool
  restarting : Bool
  status : String
  exitCode : Int
  startedAt : String
  finishedAt : String
deriving DecidableEq

/-- containerStateToStatus (internal/docker client): the full-state switch,
first-match-wins, translated clause for clause from the Go switch. -/
def containerStateToStatus (state : ContainerState) : SimulationStatus :=
  if state.running then .running
  else if state.dead then .failed
  else if state.paused then .stopped
  else if state.restarting then .running
  else if state.status = "exited" ∧ state.exitCode = 0 then .completed
  else if state.status = "exited" ∧ state.exitCode ≠ 0 then .failed
  else .pending

/-- Go strings.ToLower restricted to ASCII (the only code points the five
status keywords contain); maps A-Z to a-z and leaves the rest unchanged. -/
def goToLowerChar (c : Char) : Char :=
  if 65 ≤ c.toNat ∧ c.toNat ≤ 90 then Char.ofNat (c.toNat + 32) else c

/-- strings.ToLower on a whole string (ASCII fragment). -/
def goToLower (s : String) : String :=
  String.mk (s.data.map goToLowerChar)

/-- containerStateStringToStatus (internal/docker client): the bare-status
switch over strings.ToLower of the list-path state word. Its type shows the
exit code is never consulted on this path. -/
def containerStateStringToStatus (state : String) : SimulationStatus :=
  if goToLower state = "running" then .running
  else if goToLower state = "exited" then .completed
  else if goToLower state = "dead" then .failed
  else if goToLower state = "paused" then .stopped
  else .pending

/-- Written from the words of the precedence table in section 4.2 of the
spec (full-state path, rules 1 to 7), to be compared with the code-derived
containerStateToStatus. -/
def specFullStatePrecedence (s : ContainerState) : SimulationStatus :=
  if s.running = true then .running
  else if s.dead = true then .failed
  else if s.paused = true then .stopped
  else if s.restarting = true then .running
  else if s.status = "exited" ∧ s.exitCode = 0 then .completed
  else if s.status = "exited" ∧ s.exitCode ≠ 0 then .failed
  else .pending

/-- Written from the words of the bare-status table in section 4.2 of the
spec, on an already lower-cased state word. -/
def specBareStatusTable (lowered : String) : SimulationStatus :=
  if lowered = "running" then .running
  else if lowered = "exited" then .completed
  else if lowered = "dead" then .failed
  else if lowered = "paused" then .stopped
  else .pending

/-- A state carrying running=true and dead=true simultaneously, the
precedence example of the claim. -/
def runningAndDeadState : ContainerState :=
  { running := true, dead := true, paused := false, restarting := false,
    status := "exited", exitCode := 1, startedAt := "", finishedAt := "" }

/-- Claim C1: the full-state normalizer realizes exactly the first-match-wins
precedence table of section 4.2, and in particular a state with both
running=true and dead=true normalizes to Running, not Failed. -/
theorem c1_full_state_precedence :
    (∀ s : ContainerState, containerStateToStatus s = specFullStatePrecedence s) ∧
    containerStateToStatus runningAndDeadState = SimulationStatus.running :=
  ⟨fun _ => rfl, by decide⟩

/-- Claim C6: the bare-status normalizer of the list path factors through
lower-casing (hence is case-insensitive) and realizes the spec table of
section 4.2; "exited" maps to Completed with no exit code consulted (the
function does not even receive one). -/
theorem c6_bare_status_case_insensitive :
    (∀ s : String, containerStateStringToStatus s = specBareStatusTable (goToLower s)) ∧
    (∀ s t : String, goToLower s = goToLower t →
      containerStateStringToStatus s = containerStateStringToStatus t) ∧
    containerStateStringToStatus "Running" = SimulationStatus.running ∧
    containerStateStringToStatus "EXITED" = SimulationStatus.completed ∧
    containerStateStringToStatus "Dead" = SimulationStatus.failed ∧
    containerStateStringToStatus "pAuSeD" = SimulationStatus.stopped ∧
    containerStateStringToStatus "created" = SimulationStatus.pending := by
  refine ⟨fun _ => rfl, fun s t h => ?_, by decide, by decide, by decide, by decide, by decide⟩
  simp only [containerStateStringToStatus, h]

/-- Witness for C6: lower-case agreement discharged at a concrete pair. -/
theorem c6_bare_status_case_insensitive_witness :
    containerStateStringToStatus "RUNNING" = containerStateStringToStatus "running" :=
  c6_bare_status_case_insensitive.2.1 "RUNNING" "running" (by decide)

/-! ## Telemetry deriver (statsToMetrics and its two pure sub-computations) -/

/-- 64-bit unsigned subtraction as Go computes x - y on uint64 operands
(both below 2^64): the difference wraps modulo 2^64. -/
def goSub64 (x y : Nat) : Nat := (x + 2 ^ 64 - y) % 2 ^ 64

/-- container.CPUUsage: total cumulative usage and the per-core entries. -/
structure CPUUsage where
  totalUsage : Nat
  percpuUsage : List Nat
deriving DecidableEq

/-- container.CPUStats: cpu usage plus host system usage. -/
structure CPUStats where
  cpuUsage : CPUUsage
  systemUsage : Nat
deriving DecidableEq

/-- container.MemoryStats: the two fields the deriver reads. -/
structure MemoryStats where
  usage : Nat
  limit : Nat
deriving DecidableEq

/-- The per-interface network counters of a stats sample. -/
structure NetworkSample where
  rxBytes : Nat
  txBytes : Nat
  rxPackets : Nat
  txPackets : Nat
deriving DecidableEq

/-- container.BlkioStatEntry. -/
structure BlkioStatEntry where
  major : Nat
  minor : Nat
  op : String
  value : Nat
deriving DecidableEq

/-- container.BlkioStats: only the service-bytes list is read. -/
structure BlkioStats where
  ioServiceBytesRecursive : List BlkioStatEntry
deriving DecidableEq

/-- container.StatsResponse: the fields statsToMetrics reads. -/
structure StatsResponse where
  cpuStats : CPUStats
  preCpuStats : CPUStats
  memoryStats : MemoryStats
  networks : List (String × NetworkSample)
  blkioStats : BlkioStats
deriving DecidableEq

/-- Go map indexing on the networks map: a missing key yields the zero
value of the entry type, never a failure. -/
def goMapGet (m : List (String × NetworkSample)) (k : String) : NetworkSample :=
  (m.lookup k).getD ⟨0, 0, 0, 0⟩

/-- The cpuPercent block of statsToMetrics, lines 279 to 286: guarded by a
positive previous total, deltas computed by uint64 subtraction (which wraps,
see goSub64), both deltas required positive, and the ratio scaled by the
per-core entry count times 100. Float64 arithmetic is modelled exactly over
Rat. -/
def cpuPercentOf (stats : StatsResponse) : Rat :=
  if 0 < stats.preCpuStats.cpuUsage.totalUsage then
    let cpuDelta : Rat :=
      ((goSub64 stats.cpuStats.cpuUsage.totalUsage stats.preCpuStats.cpuUsage.totalUsage : Nat) : Rat)
    let systemDelta : Rat :=
      ((goSub64 stats.cpuStats.systemUsage stats.preCpuStats.systemUsage : Nat) : Rat)
    if 0 < systemDelta ∧ 0 < cpuDelta then
      cpuDelta / systemDelta * (stats.cpuStats.cpuUsage.percpuUsage.length : Rat) * 100
    else 0
  else 0

/-- The memoryPercent block of statsToMetrics, lines 288 to 291. -/
def memoryPercentOf (stats : StatsResponse) : Rat :=
  if 0 < stats.memoryStats.limit then
    (stats.memoryStats.usage : Rat) / (stats.memoryStats.limit : Rat) * 100
  else 0

/-- statsToMetrics: assembles the Metrics value. The disk counters index
entries 0 and 1 of the service-bytes list unconditionally; with fewer than
two entries the Go code panics with an index out of range, modelled here as
none. -/
def statsToMetrics (now : GoTime) (stats : StatsResponse) : Option Metrics :=
  match stats.blkioStats.ioServiceBytesRecursive with
  | e0 :: e1 :: _ =>
    some { cpuUsage := cpuPercentOf stats
           memoryUsage := memoryPercentOf stats
           networkIOStats :=
             { bytesReceived := (goMapGet stats.networks "eth0").rxBytes
               bytesTransmitted := (goMapGet stats.networks "eth0").txBytes
               packetsReceived := (goMapGet stats.networks "eth0").rxPackets
               packetsTransmitted := (goMapGet stats.networks "eth0").txPackets }
           diskIOStats := { bytesRead := e0.value, bytesWritten := e1.value }
           timestamp := now }
  | _ => none

/-- The zero value of container.StatsResponse, what json Decode leaves
behind when the stream ends before any bytes are read. -/
def zeroStatsResponse : StatsResponse :=
  { cpuStats := { cpuUsage := { totalUsage := 0, percpuUsage := [] }, systemUsage := 0 },
    preCpuStats := { cpuUsage := { totalUsage := 0, percpuUsage := [] }, systemUsage := 0 },
    memoryStats := { usage := 0, limit := 0 },
    networks := [],
    blkioStats := { ioServiceBytesRecursive := [] } }

/-- The outcome of decoding the stats response body as one JSON document:
a decoded sample, an end of stream before any bytes (json Decode returns
the EOF sentinel and leaves the target zero-valued), or a decode error. -/
inductive StatsDecodeOutcome where
  | decoded (s : StatsResponse)
  | emptyStream
  | failed (msg : String)
deriving DecidableEq

/-- GetSimulationMetrics after a successful stats request, lines 128 to
134: a decode error other than the EOF sentinel aborts with a wrapped
error; the EOF sentinel is ignored and derivation proceeds on the
zero-valued sample. The inner Option records whether statsToMetrics
panics. -/
def getSimulationMetrics (now : GoTime) (d : StatsDecodeOutcome) :
    Except String (Option Metrics) :=
  match d with
  | .failed m => .error ("failed to decode stats: " ++ m)
  | .emptyStream => .ok (statsToMetrics now zeroStatsResponse)
  | .decoded s => .ok (statsToMetrics now s)

/-! ## Lifecycle adapter: inspect, launch, remove -/

/-- The slice of types.ContainerJSON read by containerToSimulation:
identifier, created timestamp string, state block, and the labels of the
container configuration. -/
structure ContainerJSON where
  id : String
  created : String
  state : ContainerState
  labels : List (String × String)
deriving DecidableEq

/-- containerToSimulation, lines 201 to 227. The two RFC3339 parsers are
passed in (none models a parse error). The created parse error is bound to
the blank identifier, leaving the zero time on failure; started and
finished are set only when present and parseable; the name comes from the
reserved name label when present, else stays empty; the config field keeps
its zero value. Slicing id to its first 12 bytes panics when the
identifier is shorter, modelled as none. -/
def containerToSimulation (p3339 p3339nano : String → Option GoTime)
    (c : ContainerJSON) : Option Simulation :=
  if 12 ≤ c.id.length then
    some { id := c.id.take 12
           name := ((c.labels.lookup (autoboxLabelBase ++ ".name")).getD "")
           containerId := c.id
           status := containerStateToStatus c.state
           createdAt := (p3339 c.created).getD zeroGoTime
           startedAt := if c.state.startedAt ≠ "" then p3339nano c.state.startedAt else none
           finishedAt := if c.state.finishedAt ≠ "" then p3339nano c.state.finishedAt else none
           config := zeroSimulationConfig }
  else none

/-- The label map LaunchSimulation attaches at container creation, lines 41
to 46 (a Go map literal over four distinct keys under the reserved
namespace, given as an association list). -/
def launchLabels (nowRFC3339 : String) (config : SimulationConfig) :
    List (String × String) :=
  [ (autoboxLabelBase ++ ".simulation", "true"),
    (autoboxLabelBase ++ ".name", config.name),
    (autoboxLabelBase ++ ".config_path", config.configPath),
    (autoboxLabelBase ++ ".created_at", nowRFC3339) ]

/-- The Simulation value LaunchSimulation returns on the success path,
lines 76 to 87 (create and start errors return earlier with wrapped
errors and are not modelled); respID is the identifier the create call
returned. Note the Name field is assigned config.ConfigPath in the source.
Slicing respID to 12 bytes panics when shorter, modelled as none. -/
def launchSimulation (now : GoTime) (respID : String)
    (config : SimulationConfig) : Option Simulation :=
  if 12 ≤ respID.length then
    some { id := respID.take 12
           name := config.configPath
           containerId := respID
           status := .running
           createdAt := now
           startedAt := some now
           finishedAt := none
           config := config }
  else none

/-- The runtime calls RemoveSimulation can issue, with the arguments the
source passes. -/
inductive RuntimeOp where
  | stop (ref : String) (timeoutSeconds : Int)
  | remove (ref : String) (force : Bool) (removeVolumes : Bool)
deriving DecidableEq

/-- RemoveSimulation, lines 150 to 169: when force is set, a preliminary
stop with a 10 second grace period is issued and its outcome assigned to
the blank identifier; then remove is issued with volume cleanup and the
given force flag, and only its outcome decides the result. The returned
list records the runtime calls issued, in order; stopOutcome and
removeOutcome are the outcomes the runtime would give those calls. -/
def removeSimulation (stopOutcome removeOutcome : Except String Unit)
    (simulationID : String) (force : Bool) :
    List RuntimeOp × Except String Unit :=
  let stopOps : List RuntimeOp :=
    if force then [RuntimeOp.stop simulationID 10] else []
  let result : Except String Unit :=
    match removeOutcome with
    | .ok _ => .ok ()
    | .error e => .error ("failed to remove container: " ++ e)
  (stopOps ++ [RuntimeOp.remove simulationID force true], result)

/-! ## Concrete samples used by the claim theorems -/

/-- A 64 character container identifier, the length the runtime assigns. -/
def sampleContainerID : String :=
  "0123456789abcdef0123456789abcdef0123456789abcdef0123456789abcdef"

/-- A stats sample whose service-bytes list has a single entry: reading
entry 1 is an index out of range in the Go source. -/
def c2ShortBlkioStats : StatsResponse :=
  { zeroStatsResponse with
    blkioStats := { ioServiceBytesRecursive :=
      [ { major := 8, minor := 0, op := "Read", value := 111 } ] } }

/-- A stats sample with two service-bytes entries, read first. -/
def c2TwoEntryStats : StatsResponse :=
  { zeroStatsResponse with
    blkioStats := { ioServiceBytesRecursive :=
      [ { major := 8, minor := 0, op := "Read", value := 111 },
        { major := 8, minor := 0, op := "Write", value := 222 } ] } }

/-- Claim C2 (code bug): the derivation is NOT panic free. On a sample
whose service-bytes list has fewer than two entries the Go code indexes
out of range and panics (modelled as none) instead of degrading the disk
counters to zero; with at least two entries, bytes read and written are
taken positionally from entries 0 and 1. -/
theorem c2_disk_positional_panic :
    statsToMetrics zeroGoTime c2ShortBlkioStats = none ∧
    (statsToMetrics zeroGoTime c2TwoEntryStats).map Metrics.diskIOStats =
      some { bytesRead := 111, bytesWritten := 222 } := by
  decide

/-- The launch configuration of the C3 scenario: name "demo" with a
distinct config path. -/
def c3Config : SimulationConfig :=
  { name := "demo", configPath := "/app/configs/simulation.json", metricsPath := "",
    serverPath := "", image := "autobox-engine:latest", environment := [], volumes := [] }

/-- The inspect view of the container the C3 launch created: it carries
the labels written at creation. -/
def c3InspectJSON : ContainerJSON :=
  { id := sampleContainerID, created := "2026-10-11T00:00:00Z",
    state := { running := true, dead := false, paused := false, restarting := false,
               status := "running", exitCode := 0, startedAt := "", finishedAt := "" },
    labels := launchLabels "2026-10-11T00:00:00Z" c3Config }

/-- Claim C3 (code bug): launch writes the reserved name label from the
configured name ("demo"), and inspect recovers "demo" from that label;
but the Simulation value launch itself returns carries the config path in
its name field, not "demo" — a field mixup in the source. -/
theorem c3_launch_name_mismatch :
    (launchLabels "2026-10-11T00:00:00Z" c3Config).lookup (autoboxLabelBase ++ ".name") =
      some "demo" ∧
    (launchSimulation zeroGoTime sampleContainerID c3Config).map Simulation.name =
      some "/app/configs/simulation.json" ∧
    (launchSimulation zeroGoTime sampleContainerID c3Config).map Simulation.name ≠
      some "demo" ∧
    (containerToSimulation (fun _ => some zeroGoTime) (fun _ => some zeroGoTime)
        c3InspectJSON).map Simulation.name = some "demo" := by
  decide

/-- Claim C7 (code bug): an end of stream before any bytes is indeed not
treated as a decode error (only a non EOF decode failure aborts with a
wrapped error), but the call then derives metrics from the zero-valued
sample, whose empty service-bytes list makes the derivation panic
(the inner none) instead of returning a zero-valued Metrics. -/
theorem c7_eof_decode_panic :
    getSimulationMetrics zeroGoTime StatsDecodeOutcome.emptyStream = Except.ok none ∧
    getSimulationMetrics zeroGoTime (StatsDecodeOutcome.failed "unexpected EOF") =
      Except.error "failed to decode stats: unexpected EOF" := by
  exact ⟨rfl, rfl⟩

/-- Claim C8: force removal first issues a best-effort stop with a 10
second grace period whose outcome never influences the result, then a
remove with volume cleanup and forced removal; the result is decided by
the remove outcome alone, so a failing preliminary stop (already stopped
container) never fails the removal. -/
theorem c8_force_remove_best_effort :
    (∀ (s1 s2 r : Except String Unit) (ref : String),
      removeSimulation s1 r ref true = removeSimulation s2 r ref true) ∧
    (∀ (s r : Except String Unit) (ref : String),
      (removeSimulation s r ref true).1 =
        [RuntimeOp.stop ref 10, RuntimeOp.remove ref true true]) ∧
    (∀ (ref : String),
      (removeSimulation (Except.error "No such container") (Except.ok ()) ref true).2 =
        Except.ok ()) ∧
    (∀ (s : Except String Unit) (ref e : String),
      (removeSimulation s (Except.error e) ref true).2 =
        Except.error ("failed to remove container: " ++ e)) :=
  ⟨fun _ _ _ _ => rfl, fun _ _ _ => rfl, fun _ => rfl, fun _ _ _ => rfl⟩

/-- The C4 counterexample sample: the current total (5) is below the
previous total (10), so the mathematical usage delta is negative; the
uint64 subtraction wraps to 2^64 - 5, which passes the positivity guard. -/
def c4CexStats : StatsResponse :=
  { cpuStats := { cpuUsage := { totalUsage := 5, percpuUsage := [0, 0] }, systemUsage := 200 },
    preCpuStats := { cpuUsage := { totalUsage := 10, percpuUsage := [] }, systemUsage := 100 },
    memoryStats := { usage := 0, limit := 0 },
    networks := [],
    blkioStats := { ioServiceBytesRecursive := [] } }

/-- Counterexample to C4 as stated: on c4CexStats the usage delta is
negative (not strictly positive), yet the derived CPU percent is not 0 —
it is the wrapped value (2^64 - 5) / 100 × 2 × 100. -/
theorem c4_negative_delta_counterexample :
    (c4CexStats.cpuStats.cpuUsage.totalUsage : Int) -
      (c4CexStats.preCpuStats.cpuUsage.totalUsage : Int) < 0 ∧
    cpuPercentOf c4CexStats ≠ 0 ∧
    cpuPercentOf c4CexStats = 36893488147419103222 := by
  have hval : cpuPercentOf c4CexStats = 36893488147419103222 := by
    norm_num [cpuPercentOf, c4CexStats, goSub64]
  refine ⟨by norm_num [c4CexStats], ?_, hval⟩
  rw [hval]
  norm_num

/-- Claim C4 as amended: the deltas are uint64 differences and therefore
wrap modulo 2^64. With a zero previous total the percent is exactly 0;
with either wrapped delta zero the percent is 0; otherwise it is
(wrapped usage delta / wrapped system delta) × per-core entry count × 100;
the result is always nonnegative; and whenever the current counter is at
least the previous one (and in the uint64 range) the wrapped delta is the
mathematical delta, recovering the original statement for monotone
counters. -/
theorem c4_cpu_percent_wrapped (stats : StatsResponse) :
    0 ≤ cpuPercentOf stats ∧
    (stats.preCpuStats.cpuUsage.totalUsage = 0 → cpuPercentOf stats = 0) ∧
    (goSub64 stats.cpuStats.cpuUsage.totalUsage stats.preCpuStats.cpuUsage.totalUsage = 0 ∨
      goSub64 stats.cpuStats.systemUsage stats.preCpuStats.systemUsage = 0 →
      cpuPercentOf stats = 0) ∧
    (0 < stats.preCpuStats.cpuUsage.totalUsage →
      0 < goSub64 stats.cpuStats.cpuUsage.totalUsage stats.preCpuStats.cpuUsage.totalUsage →
      0 < goSub64 stats.cpuStats.systemUsage stats.preCpuStats.systemUsage →
      cpuPercentOf stats =
        ((goSub64 stats.cpuStats.cpuUsage.totalUsage stats.preCpuStats.cpuUsage.totalUsage : Nat) : Rat) /
          ((goSub64 stats.cpuStats.systemUsage stats.preCpuStats.systemUsage : Nat) : Rat) *
          (stats.cpuStats.cpuUsage.percpuUsage.length : Rat) * 100) ∧
    (∀ x y : Nat, y ≤ x → x < 2 ^ 64 → goSub64 x y = x - y) := by
  have hnn : 0 ≤ cpuPercentOf stats := by
    simp only [cpuPercentOf]
    split
    · split
      · positivity
      · exact le_refl 0
    · exact le_refl 0
  refine ⟨hnn, fun h => ?_, ?_, fun hpre hcpu hsys => ?_, fun x y hle hlt => ?_⟩
  · simp [cpuPercentOf, h]
  · rintro (h | h) <;> simp [cpuPercentOf, h]
  · have h1 : (0 : Rat) <
        ((goSub64 stats.cpuStats.systemUsage stats.preCpuStats.systemUsage : Nat) : Rat) := by
      exact_mod_cast hsys
    have h2 : (0 : Rat) <
        ((goSub64 stats.cpuStats.cpuUsage.totalUsage stats.preCpuStats.cpuUsage.totalUsage : Nat) : Rat) := by
      exact_mod_cast hcpu
    simp only [cpuPercentOf]
    rw [if_pos hpre, if_pos ⟨h1, h2⟩]
  · have h64 : 2 ^ 64 = 18446744073709551616 := by norm_num
    simp only [goSub64, h64]
    omega

/-- A witnessing sample for C4: monotone counters, delta 200 over a
system delta of 1000 across 4 cores. -/
def c4WitStats : StatsResponse :=
  { cpuStats := { cpuUsage := { totalUsage := 300, percpuUsage := [1, 2, 3, 4] }, systemUsage := 2000 },
    preCpuStats := { cpuUsage := { totalUsage := 100, percpuUsage := [] }, systemUsage := 1000 },
    memoryStats := { usage := 0, limit := 0 },
    networks := [],
    blkioStats := { ioServiceBytesRecursive := [] } }

/-- Witness for C4: the amended formula and guards discharged at concrete
samples (200 / 1000 × 4 × 100 = 80; zero previous total gives 0; wrapped
delta of monotone counters is the mathematical delta). -/
theorem c4_cpu_percent_wrapped_witness :
    cpuPercentOf c4WitStats = 80 ∧
    cpuPercentOf zeroStatsResponse = 0 ∧
    goSub64 300 100 = 200 :=
  ⟨((c4_cpu_percent_wrapped c4WitStats).2.2.2.1 (by decide) (by decide) (by decide)).trans
      (by norm_num [c4WitStats, goSub64]),
   (c4_cpu_percent_wrapped zeroStatsResponse).2.1 rfl,
   ((c4_cpu_percent_wrapped zeroStatsResponse).2.2.2.2 300 100 (by norm_num)
      (by norm_num)).trans (by norm_num)⟩

/-- Claim C5: memory percent is usage / limit × 100 when the limit is
positive and exactly 0 when the limit is zero; in particular usage 512
with limit 0 gives 0 and usage 50 with limit 200 gives exactly 25. -/
theorem c5_memory_percent (stats : StatsResponse) :
    (stats.memoryStats.limit = 0 → memoryPercentOf stats = 0) ∧
    (0 < stats.memoryStats.limit →
      memoryPercentOf stats =
        (stats.memoryStats.usage : Rat) / (stats.memoryStats.limit : Rat) * 100) ∧
    memoryPercentOf { stats with memoryStats := { usage := 512, limit := 0 } } = 0 ∧
    memoryPercentOf { stats with memoryStats := { usage := 50, limit := 200 } } = 25 := by
  refine ⟨fun h => by simp [memoryPercentOf, h], fun h => ?_, ?_, ?_⟩
  · unfold memoryPercentOf
    rw [if_pos h]
  · simp [memoryPercentOf]
  · norm_num [memoryPercentOf]

/-- Witness for C5: both guarded branches discharged at concrete samples. -/
theorem c5_memory_percent_witness :
    memoryPercentOf zeroStatsResponse = 0 ∧
    memoryPercentOf { zeroStatsResponse with memoryStats := { usage := 50, limit := 200 } } =
      (50 : Rat) / 200 * 100 :=
  ⟨(c5_memory_percent zeroStatsResponse).1 rfl,
   by
    have h :=
      (c5_memory_percent { zeroStatsResponse with
        memoryStats := { usage := 50, limit := 200 } }).2.1 (by norm_num)
    simpa using h⟩

/-- The C9 counterexample sample: no eth0 interface, and an empty
service-bytes list. -/
def c9CexStats : StatsResponse :=
  { zeroStatsResponse with
    networks := [("lo", { rxBytes := 1, txBytes := 2, rxPackets := 3, txPackets := 4 })] }

/-- Counterexample to C9 as stated: a sample lacking eth0 whose
service-bytes list is empty makes the call panic (none) rather than
succeed, because of the positional disk extraction. -/
theorem c9_missing_eth0_counterexample :
    c9CexStats.networks.lookup "eth0" = none ∧
    statsToMetrics zeroGoTime c9CexStats = none := by
  decide

/-- Claim C9 as amended: on every sample lacking the eth0 interface whose
service-bytes list has at least two entries (so the unrelated positional
disk extraction does not panic), the derivation succeeds and all four
network fields are zero. -/
theorem c9_missing_eth0_defaults (now : GoTime) (stats : StatsResponse)
    (hnet : stats.networks.lookup "eth0" = none)
    (e0 e1 : BlkioStatEntry) (rest : List BlkioStatEntry)
    (hblk : stats.blkioStats.ioServiceBytesRecursive = e0 :: e1 :: rest) :
    statsToMetrics now stats =
      some { cpuUsage := cpuPercentOf stats
             memoryUsage := memoryPercentOf stats
             networkIOStats := { bytesReceived := 0, bytesTransmitted := 0,
                                 packetsReceived := 0, packetsTransmitted := 0 }
             diskIOStats := { bytesRead := e0.value, bytesWritten := e1.value }
             timestamp := now } := by
  unfold statsToMetrics
  rw [hblk]
  simp [goMapGet, hnet]

/-- A witnessing sample for C9: no eth0, two service-bytes entries. -/
def c9WitStats : StatsResponse :=
  { zeroStatsResponse with
    networks := [("lo", { rxBytes := 9, txBytes := 9, rxPackets := 9, txPackets := 9 })],
    blkioStats := { ioServiceBytesRecursive :=
      [ { major := 8, minor := 0, op := "Read", value := 111 },
        { major := 8, minor := 0, op := "Write", value := 222 } ] } }

/-- Witness for C9: the amended statement discharged on c9WitStats. -/
theorem c9_missing_eth0_defaults_witness :
    statsToMetrics zeroGoTime c9WitStats =
      some { cpuUsage := 0, memoryUsage := 0,
             networkIOStats := { bytesReceived := 0, bytesTransmitted := 0,
                                 packetsReceived := 0, packetsTransmitted := 0 },
             diskIOStats := { bytesRead := 111, bytesWritten := 222 },
             timestamp := zeroGoTime } :=
  (c9_missing_eth0_defaults zeroGoTime c9WitStats rfl _ _ _ rfl).trans
    (by norm_num [cpuPercentOf, memoryPercentOf, c9WitStats, zeroStatsResponse])

/-- A full-state block of a cleanly exited container, used by the C10
witness. -/
def c10ExitedState : ContainerState :=
  { running := false, dead := false, paused := false, restarting := false,
    status := "exited", exitCode := 0, startedAt := "", finishedAt := "" }

/-- The inspect view of the C10 witness: a created string no RFC3339
parser accepts, and no labels. -/
def c10JSON : ContainerJSON :=
  { id := sampleContainerID, created := "not-a-timestamp",
    state := c10ExitedState, labels := [] }

/-- Claim C10: when the created timestamp fails RFC3339 parsing, inspect
still succeeds (given a full-length identifier) and the resulting
Simulation carries the zero time as createdAt — the parse error is bound
to the blank identifier and discarded. -/
theorem c10_created_parse_tolerated (p3339 p3339nano : String → Option GoTime)
    (c : ContainerJSON) (hid : 12 ≤ c.id.length) (hparse : p3339 c.created = none) :
    ∃ sim : Simulation, containerToSimulation p3339 p3339nano c = some sim ∧
      sim.createdAt = zeroGoTime := by
  unfold containerToSimulation
  rw [if_pos hid]
  exact ⟨_, rfl, by simp [hparse]⟩

/-- Witness for C10: a parser rejecting every string, applied to the
concrete inspect view c10JSON. -/
theorem c10_created_parse_tolerated_witness :
    ∃ sim : Simulation,
      containerToSimulation (fun _ => none) (fun _ => none) c10JSON = some sim ∧
      sim.createdAt = zeroGoTime :=
  c10_created_parse_tolerated (fun _ => none) (fun _ => none) c10JSON (by decide) rfl

end Autobox
